import Mathlib

/-!
# ZombieDash actor interfaces (Actor.h)

A shallow embedding of the class hierarchy declared in `ZombieDash/Actor.h`:

* the inheritance graph and, for every class, the virtual member functions it
  declares together with the body the header gives them (or the fact that the
  body lives in the implementation file, which the header does not contain);
* virtual dispatch as a walk up the inheritance graph to the final overrider;
* the data members of every class as records. The `int` counters of `Human`
  and `Penelope` are 32-bit: `++` and `+=` store the sum reduced to the range
  of `int` (two's complement wrap-around, which is what the compiled program
  does where the C++ standard leaves the overflow undefined). The plan counter
  of `Zombie` is an integer, the statements about it being made with overflow
  set aside;
* the member functions whose bodies are written in the header.

The `GraphObject` base of `Actor` (position, direction, image, depth) comes from
a header that is not part of this file set and is not touched by any of the
functions embedded here, so it carries no field in the records below.
-/

namespace ZombieDash

/-! ## Class hierarchy -/

/-- The classes declared in Actor.h. -/
inductive ClassId
  | Actor | Wall | ActivatingObject | Exit | Pit | Flame | Vomit | Landmine
  | Goodie | VaccineGoodie | GasCanGoodie | LandmineGoodie
  | Agent | Human | Penelope | Citizen | Zombie | DumbZombie | SmartZombie
deriving DecidableEq, Repr

/-- The direct base class named in each class head (`Actor` derives from
`GraphObject`, which is outside the header). -/
def base : ClassId → Option ClassId
  | .Actor => none
  | .Wall => some .Actor
  | .ActivatingObject => some .Actor
  | .Exit => some .ActivatingObject
  | .Pit => some .ActivatingObject
  | .Flame => some .ActivatingObject
  | .Vomit => some .ActivatingObject
  | .Landmine => some .ActivatingObject
  | .Goodie => some .ActivatingObject
  | .VaccineGoodie => some .Goodie
  | .GasCanGoodie => some .Goodie
  | .LandmineGoodie => some .Goodie
  | .Agent => some .Actor
  | .Human => some .Agent
  | .Penelope => some .Human
  | .Citizen => some .Human
  | .Zombie => some .Agent
  | .DumbZombie => some .Zombie
  | .SmartZombie => some .Zombie

/-- The virtual member functions declared anywhere in the hierarchy. -/
inductive Method
  | doSomething
  | activateIfAppropriate
  | useExitIfAppropriate
  | dieByFallOrBurnIfAppropriate
  | beVomitedOnIfAppropriate
  | pickUpGoodieIfAppropriate
  | blocksMovement
  | blocksFlame
  | triggersOnlyActiveLandmines
  | triggersZombieVomit
  | threatensCitizens
  | triggersCitizens
  | isPlayer
  | pickUp
deriving DecidableEq, Repr

/-- What the header says about the body of a declared virtual function. -/
inductive Body
  /-- Declared `= 0`. -/
  | pureVirtual
  /-- Declared in the header, defined in the implementation file. -/
  | outOfLine
  /-- Inline body `{ return; }`. -/
  | returnVoid
  /-- Inline body `{ return b; }`. -/
  | returnBool (b : Bool)
deriving DecidableEq, Repr

/-- The virtual functions each class declares itself, with their bodies,
transcribed class by class from the header. -/
def declares : ClassId → Method → Option Body
  -- class Actor
  | .Actor, .doSomething => some .pureVirtual
  | .Actor, .activateIfAppropriate => some .returnVoid
  | .Actor, .useExitIfAppropriate => some .returnVoid
  | .Actor, .dieByFallOrBurnIfAppropriate => some .returnVoid
  | .Actor, .beVomitedOnIfAppropriate => some .returnVoid
  | .Actor, .pickUpGoodieIfAppropriate => some .returnVoid
  | .Actor, .blocksMovement => some (.returnBool false)
  | .Actor, .blocksFlame => some (.returnBool false)
  | .Actor, .triggersOnlyActiveLandmines => some (.returnBool false)
  | .Actor, .triggersZombieVomit => some (.returnBool false)
  | .Actor, .threatensCitizens => some .outOfLine
  | .Actor, .triggersCitizens => some (.returnBool false)
  | .Actor, .isPlayer => some (.returnBool false)
  -- class Wall
  | .Wall, .doSomething => some .outOfLine
  | .Wall, .blocksMovement => some .outOfLine
  | .Wall, .blocksFlame => some .outOfLine
  -- class Exit
  | .Exit, .doSomething => some .outOfLine
  | .Exit, .activateIfAppropriate => some .outOfLine
  | .Exit, .blocksFlame => some .outOfLine
  -- class Pit
  | .Pit, .doSomething => some .outOfLine
  | .Pit, .activateIfAppropriate => some .outOfLine
  -- class Flame
  | .Flame, .doSomething => some .outOfLine
  | .Flame, .activateIfAppropriate => some .outOfLine
  -- class Vomit
  | .Vomit, .doSomething => some .outOfLine
  | .Vomit, .activateIfAppropriate => some .outOfLine
  -- class Landmine
  | .Landmine, .doSomething => some .outOfLine
  | .Landmine, .activateIfAppropriate => some .outOfLine
  | .Landmine, .dieByFallOrBurnIfAppropriate => some .outOfLine
  -- class Goodie
  | .Goodie, .activateIfAppropriate => some .outOfLine
  | .Goodie, .dieByFallOrBurnIfAppropriate => some .outOfLine
  | .Goodie, .pickUp => some .pureVirtual
  -- class VaccineGoodie
  | .VaccineGoodie, .doSomething => some .outOfLine
  | .VaccineGoodie, .pickUp => some .outOfLine
  -- class GasCanGoodie
  | .GasCanGoodie, .doSomething => some .outOfLine
  | .GasCanGoodie, .pickUp => some .outOfLine
  -- class LandmineGoodie
  | .LandmineGoodie, .doSomething => some .outOfLine
  | .LandmineGoodie, .pickUp => some .outOfLine
  -- class Agent
  | .Agent, .blocksMovement => some .outOfLine
  | .Agent, .triggersOnlyActiveLandmines => some (.returnBool true)
  -- class Human
  | .Human, .beVomitedOnIfAppropriate => some .outOfLine
  | .Human, .triggersZombieVomit => some (.returnBool true)
  -- class Penelope
  | .Penelope, .doSomething => some .outOfLine
  | .Penelope, .useExitIfAppropriate => some .outOfLine
  | .Penelope, .dieByFallOrBurnIfAppropriate => some .outOfLine
  | .Penelope, .pickUpGoodieIfAppropriate => some .outOfLine
  | .Penelope, .isPlayer => some (.returnBool true)
  -- class Citizen
  | .Citizen, .doSomething => some .outOfLine
  | .Citizen, .useExitIfAppropriate => some .outOfLine
  | .Citizen, .dieByFallOrBurnIfAppropriate => some .outOfLine
  -- class Zombie
  | .Zombie, .triggersCitizens => some (.returnBool true)
  -- class DumbZombie
  | .DumbZombie, .doSomething => some .outOfLine
  | .DumbZombie, .dieByFallOrBurnIfAppropriate => some .outOfLine
  -- class SmartZombie
  | .SmartZombie, .doSomething => some .outOfLine
  | .SmartZombie, .dieByFallOrBurnIfAppropriate => some .outOfLine
  -- ActivatingObject declares no virtual function; nothing else is declared
  | _, _ => none

/-- Final overrider of `m` seen from class `c`: the nearest class on the path
from `c` up to the root that declares `m`. The fuel bounds the path length. -/
def resolveFrom : Nat → ClassId → Method → Option (ClassId × Body)
  | 0, _, _ => none
  | fuel + 1, c, m =>
    match declares c m with
    | some b => some (c, b)
    | none =>
      match base c with
      | some p => resolveFrom fuel p m
      | none => none

/-- Virtual dispatch. The longest inheritance path in the header has four
classes (for instance Penelope, Human, Agent, Actor). -/
def resolve (c : ClassId) (m : Method) : Option (ClassId × Body) :=
  resolveFrom 4 c m

/-- The class `c` is the class `d` or reaches it in at most `fuel` steps up
the inheritance graph. -/
def derivesFromIn : Nat → ClassId → ClassId → Bool
  | 0, c, d => c == d
  | fuel + 1, c, d =>
    c == d ||
    match base c with
    | some p => derivesFromIn fuel p d
    | none => false

/-- The class `c` is the class `d` or derives from it. -/
def derivesFrom (c d : ClassId) : Bool :=
  derivesFromIn 3 c d

/-- A class can be instantiated when no function it declares or inherits is
left pure virtual. -/
def isConcrete (c : ClassId) : Bool :=
  match resolve c .doSomething, resolve c .pickUp with
  | some (_, .pureVirtual), _ => false
  | _, some (_, .pureVirtual) => false
  | none, _ => false
  | _, _ => true

/-! ## Data members and the member functions defined in the header -/

/-- Largest value of a 32-bit `int`. -/
def INT_MAX : Int :=
  2147483647

/-- Smallest value of a 32-bit `int`. -/
def INT_MIN : Int :=
  -2147483648

/-- The value an `int` holds after a sum `x` is stored in it: `x` itself when
it is in range, otherwise `x` shifted by a multiple of `2^32` into the range. -/
def wrapInt (x : Int) : Int :=
  (x + 2147483648) % 4294967296 - 2147483648

/-- Data members of `Actor`. The world pointer is an address that no function
of the header changes. -/
structure Actor where
  m_dead : Bool
  m_world : Nat
deriving DecidableEq, Repr

/-- Body of `Actor::isDead`: `return m_dead;`. -/
def Actor.isDead (a : Actor) : Bool :=
  a.m_dead

/-- Body of `Actor::setDead`: `m_dead = true;`. -/
def Actor.setDead (a : Actor) : Actor :=
  { a with m_dead := true }

/-- Body of `Actor::getWorld`: `return m_world;`. -/
def Actor.getWorld (a : Actor) : Nat :=
  a.m_world

/-- The class `Wall` adds no data member. -/
structure Wall extends Actor
deriving DecidableEq, Repr

/-- The class `ActivatingObject` adds no data member. -/
structure ActivatingObject extends Actor
deriving DecidableEq, Repr

/-- The class `Exit` adds no data member. -/
structure Exit extends ActivatingObject
deriving DecidableEq, Repr

/-- The class `Pit` adds no data member. -/
structure Pit extends ActivatingObject
deriving DecidableEq, Repr

/-- Data members of `Flame`. -/
structure Flame extends ActivatingObject where
  m_burnOut : Int
deriving DecidableEq, Repr

/-- Data members of `Vomit`. -/
structure Vomit extends ActivatingObject where
  m_bileCount : Int
deriving DecidableEq, Repr

/-- Data members of `Landmine`. -/
structure Landmine extends ActivatingObject where
  safetyTicks : Int
  isActive : Bool
deriving DecidableEq, Repr

/-- The class `Goodie` adds no data member. -/
structure Goodie extends ActivatingObject
deriving DecidableEq, Repr

/-- The class `VaccineGoodie` adds no data member. -/
structure VaccineGoodie extends Goodie
deriving DecidableEq, Repr

/-- The class `GasCanGoodie` adds no data member. -/
structure GasCanGoodie extends Goodie
deriving DecidableEq, Repr

/-- The class `LandmineGoodie` adds no data member. -/
structure LandmineGoodie extends Goodie
deriving DecidableEq, Repr

/-- Data members of `Agent`. -/
structure Agent extends Actor where
  m_stuck : Bool
deriving DecidableEq, Repr

/-- Body of `Agent::isStuck`: `return m_stuck;`. -/
def Agent.isStuck (a : Agent) : Bool :=
  a.m_stuck

/-- Data members of `Human`. -/
structure Human extends Agent where
  m_isInfected : Bool
  m_infection : Int
deriving DecidableEq, Repr

/-- Body of `Human::getInfectionDuration`: `return m_infection;`. -/
def Human.getInfectionDuration (h : Human) : Int :=
  h.m_infection

/-- Body of `Human::incrementInfect`: `m_infection++;` on an `int`. -/
def Human.incrementInfect (h : Human) : Human :=
  { h with m_infection := wrapInt (h.m_infection + 1) }

/-- Data members of `Penelope`. -/
structure Penelope extends Human where
  m_numVaccines : Int
  m_numFlameCharges : Int
  m_numLandmines : Int
deriving DecidableEq, Repr

/-- Body of `Penelope::increaseVaccines`: `m_numVaccines++;` on an `int`. -/
def Penelope.increaseVaccines (p : Penelope) : Penelope :=
  { p with m_numVaccines := wrapInt (p.m_numVaccines + 1) }

/-- Body of `Penelope::increaseFlameCharges`: `m_numFlameCharges+=5;` on an
`int`. -/
def Penelope.increaseFlameCharges (p : Penelope) : Penelope :=
  { p with m_numFlameCharges := wrapInt (p.m_numFlameCharges + 5) }

/-- Body of `Penelope::increaseLandmines`: `m_numLandmines+=2;` on an `int`. -/
def Penelope.increaseLandmines (p : Penelope) : Penelope :=
  { p with m_numLandmines := wrapInt (p.m_numLandmines + 2) }

/-- Body of `Penelope::getNumVaccines`: `return m_numVaccines;`. -/
def Penelope.getNumVaccines (p : Penelope) : Int :=
  p.m_numVaccines

/-- Body of `Penelope::getNumFlameCharges`: `return m_numFlameCharges;`. -/
def Penelope.getNumFlameCharges (p : Penelope) : Int :=
  p.m_numFlameCharges

/-- Body of `Penelope::getNumLandmines`: `return m_numLandmines;`. -/
def Penelope.getNumLandmines (p : Penelope) : Int :=
  p.m_numLandmines

/-- The class `Citizen` adds no data member. -/
structure Citizen extends Human
deriving DecidableEq, Repr

/-- Data members of `Zombie`. The class has a private `m_stuck` of its own next
to the one of `Agent`; record fields cannot repeat a name, so it is
`m_stuckZombie` here. -/
structure Zombie extends Agent where
  m_stuckZombie : Bool
  m_movementPlan : Int
deriving DecidableEq, Repr

/-- Body of `Zombie::getPlan`: `return m_movementPlan;` in a function returning
`bool`, so the integer is converted: zero gives false, anything else true. -/
def Zombie.getPlan (z : Zombie) : Bool :=
  decide (z.m_movementPlan ≠ 0)

/-- Body of `Zombie::setPlan`: `m_movementPlan = steps;`. -/
def Zombie.setPlan (z : Zombie) (steps : Int) : Zombie :=
  { z with m_movementPlan := steps }

/-- Body of `Zombie::decPlan`: `m_movementPlan--;`, with overflow set aside:
the counter is an integer here. -/
def Zombie.decPlan (z : Zombie) : Zombie :=
  { z with m_movementPlan := z.m_movementPlan - 1 }

/-- The class `DumbZombie` adds no data member. -/
structure DumbZombie extends Zombie
deriving DecidableEq, Repr

/-- The class `SmartZombie` adds no data member. -/
structure SmartZombie extends Zombie
deriving DecidableEq, Repr

/-! ## Objects and calls on them -/

/-- An object of one of the classes that can be instantiated, with the data
members of its complete type. -/
inductive Entity
  | wall (o : Wall)
  | exit (o : Exit)
  | pit (o : Pit)
  | flame (o : Flame)
  | vomit (o : Vomit)
  | landmine (o : Landmine)
  | vaccineGoodie (o : VaccineGoodie)
  | gasCanGoodie (o : GasCanGoodie)
  | landmineGoodie (o : LandmineGoodie)
  | penelope (o : Penelope)
  | citizen (o : Citizen)
  | dumbZombie (o : DumbZombie)
  | smartZombie (o : SmartZombie)
deriving DecidableEq, Repr

/-- Dynamic type of an object. -/
def Entity.classOf : Entity → ClassId
  | .wall _ => .Wall
  | .exit _ => .Exit
  | .pit _ => .Pit
  | .flame _ => .Flame
  | .vomit _ => .Vomit
  | .landmine _ => .Landmine
  | .vaccineGoodie _ => .VaccineGoodie
  | .gasCanGoodie _ => .GasCanGoodie
  | .landmineGoodie _ => .LandmineGoodie
  | .penelope _ => .Penelope
  | .citizen _ => .Citizen
  | .dumbZombie _ => .DumbZombie
  | .smartZombie _ => .SmartZombie

/-- The `Actor` sub-object of an object. -/
def Entity.toActor : Entity → Actor
  | .wall o => o.toActor
  | .exit o => o.toActor
  | .pit o => o.toActor
  | .flame o => o.toActor
  | .vomit o => o.toActor
  | .landmine o => o.toActor
  | .vaccineGoodie o => o.toActor
  | .gasCanGoodie o => o.toActor
  | .landmineGoodie o => o.toActor
  | .penelope o => o.toActor
  | .citizen o => o.toActor
  | .dumbZombie o => o.toActor
  | .smartZombie o => o.toActor

/-- Calls `isDead()` on an object. -/
def Entity.isDead (e : Entity) : Bool :=
  e.toActor.isDead

/-- Calls `setDead()` on an object: the `Actor` sub-object is updated, every
other data member stays. -/
def Entity.setDead : Entity → Entity
  | .wall o => .wall { o with toActor := o.toActor.setDead }
  | .exit o => .exit { o with toActor := o.toActor.setDead }
  | .pit o => .pit { o with toActor := o.toActor.setDead }
  | .flame o => .flame { o with toActor := o.toActor.setDead }
  | .vomit o => .vomit { o with toActor := o.toActor.setDead }
  | .landmine o => .landmine { o with toActor := o.toActor.setDead }
  | .vaccineGoodie o => .vaccineGoodie { o with toActor := o.toActor.setDead }
  | .gasCanGoodie o => .gasCanGoodie { o with toActor := o.toActor.setDead }
  | .landmineGoodie o => .landmineGoodie { o with toActor := o.toActor.setDead }
  | .penelope o => .penelope { o with toActor := o.toActor.setDead }
  | .citizen o => .citizen { o with toActor := o.toActor.setDead }
  | .dumbZombie o => .dumbZombie { o with toActor := o.toActor.setDead }
  | .smartZombie o => .smartZombie { o with toActor := o.toActor.setDead }

/-- Calls a member function of `Human` on an object; only objects whose class
derives from `Human` have it. -/
def Entity.onHuman (f : Human → Human) : Entity → Option Entity
  | .penelope o => some (.penelope { o with toHuman := f o.toHuman })
  | .citizen o => some (.citizen { o with toHuman := f o.toHuman })
  | _ => none

/-- Calls a member function of `Penelope` on an object. -/
def Entity.onPenelope (f : Penelope → Penelope) : Entity → Option Entity
  | .penelope o => some (.penelope (f o))
  | _ => none

/-- Calls a member function of `Zombie` on an object; only objects whose class
derives from `Zombie` have it. -/
def Entity.onZombie (f : Zombie → Zombie) : Entity → Option Entity
  | .dumbZombie o => some (.dumbZombie { o with toZombie := f o.toZombie })
  | .smartZombie o => some (.smartZombie { o with toZombie := f o.toZombie })
  | _ => none

/-- Virtual call of a `bool` query on an object of dynamic type `c`. The
answer is known from the header when the final overrider has an inline body. -/
def callBool (c : ClassId) (m : Method) : Option Bool :=
  match resolve c m with
  | some (_, .returnBool b) => some b
  | _ => none

/-- Virtual call of a `void` callback on an object. When the final overrider is
an inline `{ return; }` the call returns with the object as it was; any other
body is not in the header. -/
def Entity.callVoid (m : Method) (e : Entity) : Option Entity :=
  match resolve e.classOf m with
  | some (_, .returnVoid) => some e
  | _ => none

/-- Calls `blocksMovement()`. -/
def Entity.blocksMovement (e : Entity) : Option Bool :=
  callBool e.classOf .blocksMovement

/-- Calls `blocksFlame()`. -/
def Entity.blocksFlame (e : Entity) : Option Bool :=
  callBool e.classOf .blocksFlame

/-- Calls `triggersOnlyActiveLandmines()`. -/
def Entity.triggersOnlyActiveLandmines (e : Entity) : Option Bool :=
  callBool e.classOf .triggersOnlyActiveLandmines

/-- Calls `triggersZombieVomit()`. -/
def Entity.triggersZombieVomit (e : Entity) : Option Bool :=
  callBool e.classOf .triggersZombieVomit

/-- Calls `triggersCitizens()`. -/
def Entity.triggersCitizens (e : Entity) : Option Bool :=
  callBool e.classOf .triggersCitizens

/-- Calls `isPlayer()`. -/
def Entity.isPlayer (e : Entity) : Option Bool :=
  callBool e.classOf .isPlayer

/-- Calls `useExitIfAppropriate()`. -/
def Entity.useExitIfAppropriate (e : Entity) : Option Entity :=
  e.callVoid .useExitIfAppropriate

/-- Calls `dieByFallOrBurnIfAppropriate()`. -/
def Entity.dieByFallOrBurnIfAppropriate (e : Entity) : Option Entity :=
  e.callVoid .dieByFallOrBurnIfAppropriate

/-- Calls `beVomitedOnIfAppropriate()`. -/
def Entity.beVomitedOnIfAppropriate (e : Entity) : Option Entity :=
  e.callVoid .beVomitedOnIfAppropriate

/-- Calls `activateIfAppropriate(a)` on `e`; the result is the state of the
receiver and of the argument after the call. The inline body ignores `a`. -/
def Entity.activateIfAppropriate (e a : Entity) : Option (Entity × Entity) :=
  match resolve e.classOf .activateIfAppropriate with
  | some (_, .returnVoid) => some (e, a)
  | _ => none

/-- Calls `pickUpGoodieIfAppropriate(g)` on `e`; the result is the state of the
receiver and of the goodie after the call. The parameter is a `Goodie*`, so
the argument has to be of a class deriving from `Goodie`. The inline body
ignores `g`. -/
def Entity.pickUpGoodieIfAppropriate (e g : Entity) : Option (Entity × Entity) :=
  if derivesFrom g.classOf .Goodie then
    match resolve e.classOf .pickUpGoodieIfAppropriate with
    | some (_, .returnVoid) => some (e, g)
    | _ => none
  else none

/-- The class `c` has an overrider of `m` other than the one of `Actor`: the
class itself or one of its bases below `Actor` declares `m`. -/
def overrides (c : ClassId) (m : Method) : Bool :=
  match resolve c m with
  | some (d, _) => d != .Actor
  | none => false

/-- The capability queries with an inline default in `Actor`. -/
def capabilityQueries : List Method :=
  [.blocksMovement, .blocksFlame, .triggersOnlyActiveLandmines, .triggersCitizens,
   .triggersZombieVomit, .isPlayer]

/-! ## Sequences of calls -/

/-- The calls on an object whose effect is written in the header: `setDead`,
the five callbacks (as receiver, and as the argument handed to another
object), and the counter and inventory mutators. -/
inductive Op
  | setDead
  | activateIfAppropriate (a : Entity)
  | activatedOn (receiver : Entity)
  | useExitIfAppropriate
  | dieByFallOrBurnIfAppropriate
  | beVomitedOnIfAppropriate
  | pickUpGoodieIfAppropriate (g : Entity)
  | pickedUpBy (receiver : Entity)
  | incrementInfect
  | increaseVaccines
  | increaseFlameCharges
  | increaseLandmines
  | setPlan (steps : Int)
  | decPlan
deriving DecidableEq, Repr

/-- State of the object `e` after one call. There is no result when the class
of `e` has no such member, or when the body that runs is not in the header. -/
def Op.apply : Op → Entity → Option Entity
  | .setDead, e => some e.setDead
  | .activateIfAppropriate a, e => (e.activateIfAppropriate a).map Prod.fst
  | .activatedOn r, e => (r.activateIfAppropriate e).map Prod.snd
  | .useExitIfAppropriate, e => e.useExitIfAppropriate
  | .dieByFallOrBurnIfAppropriate, e => e.dieByFallOrBurnIfAppropriate
  | .beVomitedOnIfAppropriate, e => e.beVomitedOnIfAppropriate
  | .pickUpGoodieIfAppropriate g, e => (e.pickUpGoodieIfAppropriate g).map Prod.fst
  | .pickedUpBy r, e => (r.pickUpGoodieIfAppropriate e).map Prod.snd
  | .incrementInfect, e => e.onHuman Human.incrementInfect
  | .increaseVaccines, e => e.onPenelope Penelope.increaseVaccines
  | .increaseFlameCharges, e => e.onPenelope Penelope.increaseFlameCharges
  | .increaseLandmines, e => e.onPenelope Penelope.increaseLandmines
  | .setPlan steps, e => e.onZombie (fun z => z.setPlan steps)
  | .decPlan, e => e.onZombie Zombie.decPlan

/-- State of the object after a sequence of calls, first call first. -/
def run : List Op → Entity → Option Entity
  | [], e => some e
  | op :: rest, e =>
    match op.apply e with
    | some e1 => run rest e1
    | none => none

/-! ## Sample objects -/

/-- A live actor sub-object. -/
def liveActor : Actor :=
  { m_dead := false, m_world := 0 }

/-- A live wall. -/
def sampleWall : Entity :=
  .wall { toActor := liveActor }

/-- A live pit. -/
def samplePit : Entity :=
  .pit { toActor := liveActor }

/-- A live vaccine goodie. -/
def sampleGoodie : Entity :=
  .vaccineGoodie { toActor := liveActor }

/-- A live, uninfected human, not stuck. -/
def sampleHuman : Human :=
  { toActor := liveActor, m_stuck := false, m_isInfected := false, m_infection := 0 }

/-- A live player with an empty inventory. -/
def samplePenelope : Penelope :=
  { toHuman := sampleHuman, m_numVaccines := 0, m_numFlameCharges := 0, m_numLandmines := 0 }

/-- A live zombie with an expired plan. -/
def sampleZombie : Zombie :=
  { toActor := liveActor, m_stuck := false, m_stuckZombie := false, m_movementPlan := 0 }

/-- A sequence of calls a player object accepts. -/
def sampleOps : List Op :=
  [.setDead, .increaseVaccines, .incrementInfect, .activateIfAppropriate sampleWall,
   .activatedOn sampleWall, .increaseFlameCharges, .increaseLandmines]

/-- The player `samplePenelope` after `setDead` and then `sampleOps`. -/
def sampleAfterOps : Entity :=
  .penelope
    { toActor := { m_dead := true, m_world := 0 }, m_stuck := false, m_isInfected := false,
      m_infection := 1, m_numVaccines := 1, m_numFlameCharges := 5, m_numLandmines := 2 }

/-- A player holding 2147483645 flame charges, two below the largest `int`. -/
def fullFlamePenelope : Penelope :=
  { toHuman := sampleHuman, m_numVaccines := 0, m_numFlameCharges := 2147483645,
    m_numLandmines := 0 }

/-- A human whose infection counter is at the largest `int`. -/
def longInfectedHuman : Human :=
  { toActor := liveActor, m_stuck := false, m_isInfected := true, m_infection := 2147483647 }

/-- A live, uninfected citizen. -/
def sampleCitizen : Entity :=
  .citizen { toHuman := sampleHuman }

/-- The classes that can be instantiated and take `dieByFallOrBurnIfAppropriate`
from `Actor`. -/
def fallOrBurnDefaultKinds : List ClassId :=
  [.Wall, .Exit, .Pit, .Flame, .Vomit]

/-- The agent kinds. -/
def agentKinds : List ClassId :=
  [.Penelope, .Citizen, .DumbZombie, .SmartZombie]

/-- The kinds that are not agents. -/
def nonAgentKinds : List ClassId :=
  [.Wall, .Exit, .Pit, .Flame, .Vomit, .Landmine, .VaccineGoodie, .GasCanGoodie,
   .LandmineGoodie]

/-! ## Helper lemmas -/

/-- Four steps of fuel are enough for dispatch: more fuel never changes the
final overrider. -/
theorem resolveFrom_fuel (c : ClassId) (m : Method) (n : Nat) :
    resolveFrom (4 + n) c m = resolve c m := by
  have h : 4 + n = (n + 3) + 1 := by omega
  rw [h]
  cases c <;> cases m <;> rfl

/-- The root class has no base to climb to, whatever the fuel. -/
theorem derivesFromIn_root (d : ClassId) (n : Nat) :
    derivesFromIn n .Actor d = (ClassId.Actor == d) := by
  cases n <;> simp [derivesFromIn, base]

/-- Three steps of fuel are enough to reach every base class. -/
theorem derivesFromIn_fuel (c d : ClassId) (n : Nat) :
    derivesFromIn (3 + n) c d = derivesFrom c d := by
  have h : 3 + n = n + 1 + 1 + 1 := by omega
  rw [h]
  cases c <;>
    simp only [derivesFrom, derivesFromIn, base, derivesFromIn_root, Bool.or_false]

/-- Every virtual function of `Actor` has a final overrider in every class. -/
theorem resolve_isSome (c : ClassId) (m : Method) (h : m ≠ .pickUp) :
    (resolve c m).isSome = true := by
  cases m <;> first
    | exact absurd rfl h
    | (cases c <;> rfl)

/-- The objects are exactly those of the classes that can be instantiated. -/
theorem isConcrete_iff (c : ClassId) : isConcrete c = true ↔ ∃ e : Entity, e.classOf = c := by
  constructor
  · intro h
    cases c <;> first
      | exact absurd h (by decide)
      | exact ⟨.wall { toActor := liveActor }, rfl⟩
      | exact ⟨.exit { toActor := liveActor }, rfl⟩
      | exact ⟨.pit { toActor := liveActor }, rfl⟩
      | exact ⟨.flame { toActor := liveActor, m_burnOut := 0 }, rfl⟩
      | exact ⟨.vomit { toActor := liveActor, m_bileCount := 0 }, rfl⟩
      | exact ⟨.landmine { toActor := liveActor, safetyTicks := 0, isActive := false }, rfl⟩
      | exact ⟨.vaccineGoodie { toActor := liveActor }, rfl⟩
      | exact ⟨.gasCanGoodie { toActor := liveActor }, rfl⟩
      | exact ⟨.landmineGoodie { toActor := liveActor }, rfl⟩
      | exact ⟨.penelope samplePenelope, rfl⟩
      | exact ⟨.citizen { toHuman := sampleHuman }, rfl⟩
      | exact ⟨.dumbZombie { toZombie := sampleZombie }, rfl⟩
      | exact ⟨.smartZombie { toZombie := sampleZombie }, rfl⟩
  · rintro ⟨e, rfl⟩
    cases e <;> rfl

theorem callVoid_same {m : Method} {e e1 : Entity} (h : e.callVoid m = some e1) : e1 = e := by
  unfold Entity.callVoid at h
  split at h
  · exact (Option.some.inj h).symm
  · exact absurd h (by simp)

theorem activate_same {e a : Entity} {r : Entity × Entity}
    (h : e.activateIfAppropriate a = some r) : r = (e, a) := by
  unfold Entity.activateIfAppropriate at h
  split at h
  · exact (Option.some.inj h).symm
  · exact absurd h (by simp)

theorem pickUpGoodie_same {e g : Entity} {r : Entity × Entity}
    (h : e.pickUpGoodieIfAppropriate g = some r) : r = (e, g) := by
  unfold Entity.pickUpGoodieIfAppropriate at h
  split at h
  · split at h
    · exact (Option.some.inj h).symm
    · exact absurd h (by simp)
  · exact absurd h (by simp)

theorem onHuman_toActor {f : Human → Human} (hf : ∀ h, (f h).toActor = h.toActor)
    {e e1 : Entity} (h : e.onHuman f = some e1) : e1.toActor = e.toActor := by
  cases e <;> simp [Entity.onHuman] at h
  all_goals subst h
  all_goals simp [Entity.toActor, hf]

theorem onPenelope_toActor {f : Penelope → Penelope} (hf : ∀ p, (f p).toActor = p.toActor)
    {e e1 : Entity} (h : e.onPenelope f = some e1) : e1.toActor = e.toActor := by
  cases e <;> simp [Entity.onPenelope] at h
  all_goals subst h
  all_goals simp [Entity.toActor, hf]

theorem onZombie_toActor {f : Zombie → Zombie} (hf : ∀ z, (f z).toActor = z.toActor)
    {e e1 : Entity} (h : e.onZombie f = some e1) : e1.toActor = e.toActor := by
  cases e <;> simp [Entity.onZombie] at h
  all_goals subst h
  all_goals simp [Entity.toActor, hf]

theorem isDead_setDead (e : Entity) : e.setDead.isDead = true := by
  cases e <;> rfl

/-- One call of the header never takes a dead object back to live. -/
theorem apply_keeps_dead {op : Op} {e e1 : Entity} (h : op.apply e = some e1)
    (hd : e.isDead = true) : e1.isDead = true := by
  cases op with
  | setDead =>
    simp only [Op.apply, Option.some.injEq] at h
    subst h
    exact isDead_setDead e
  | activateIfAppropriate a =>
    simp only [Op.apply, Option.map_eq_some'] at h
    obtain ⟨r, hr, rfl⟩ := h
    rw [activate_same hr]
    exact hd
  | activatedOn r =>
    simp only [Op.apply, Option.map_eq_some'] at h
    obtain ⟨r1, hr, rfl⟩ := h
    rw [activate_same hr]
    exact hd
  | useExitIfAppropriate => rw [callVoid_same h]; exact hd
  | dieByFallOrBurnIfAppropriate => rw [callVoid_same h]; exact hd
  | beVomitedOnIfAppropriate => rw [callVoid_same h]; exact hd
  | pickUpGoodieIfAppropriate g =>
    simp only [Op.apply, Option.map_eq_some'] at h
    obtain ⟨r, hr, rfl⟩ := h
    rw [pickUpGoodie_same hr]
    exact hd
  | pickedUpBy r =>
    simp only [Op.apply, Option.map_eq_some'] at h
    obtain ⟨r1, hr, rfl⟩ := h
    rw [pickUpGoodie_same hr]
    exact hd
  | incrementInfect =>
    have := onHuman_toActor (f := Human.incrementInfect) (fun _ => rfl) h
    simpa [Entity.isDead, this] using hd
  | increaseVaccines =>
    have := onPenelope_toActor (f := Penelope.increaseVaccines) (fun _ => rfl) h
    simpa [Entity.isDead, this] using hd
  | increaseFlameCharges =>
    have := onPenelope_toActor (f := Penelope.increaseFlameCharges) (fun _ => rfl) h
    simpa [Entity.isDead, this] using hd
  | increaseLandmines =>
    have := onPenelope_toActor (f := Penelope.increaseLandmines) (fun _ => rfl) h
    simpa [Entity.isDead, this] using hd
  | setPlan steps =>
    have := onZombie_toActor (f := fun z => z.setPlan steps) (fun _ => rfl) h
    simpa [Entity.isDead, this] using hd
  | decPlan =>
    have := onZombie_toActor (f := Zombie.decPlan) (fun _ => rfl) h
    simpa [Entity.isDead, this] using hd

theorem run_keeps_dead (ops : List Op) : ∀ {e e1 : Entity}, run ops e = some e1 →
    e.isDead = true → e1.isDead = true := by
  induction ops with
  | nil =>
    intro e e1 h hd
    simp only [run, Option.some.injEq] at h
    subst h
    exact hd
  | cons op rest ih =>
    intro e e1 h hd
    unfold run at h
    split at h
    · next e2 h2 => exact ih h (apply_keeps_dead h2 hd)
    · exact absurd h (by simp)

/-- A value inside the range of `int` is stored as it is. -/
theorem wrapInt_of_inRange {x : Int} (hlo : INT_MIN ≤ x) (hhi : x ≤ INT_MAX) :
    wrapInt x = x := by
  unfold INT_MIN at hlo
  unfold INT_MAX at hhi
  unfold wrapInt
  omega

/-- What is stored is always inside the range of `int`. -/
theorem wrapInt_inRange (x : Int) : INT_MIN ≤ wrapInt x ∧ wrapInt x ≤ INT_MAX := by
  unfold INT_MIN INT_MAX wrapInt
  omega

/-- Calls of `incrementInfect` touch nothing but the counter. -/
theorem incrementInfect_iterate_frame (h : Human) (k : Nat) :
    (Human.incrementInfect^[k] h).toAgent = h.toAgent ∧
    (Human.incrementInfect^[k] h).m_isInfected = h.m_isInfected := by
  induction k with
  | zero => exact ⟨rfl, rfl⟩
  | succ n ih =>
    rw [Function.iterate_succ_apply']
    exact ih

/-- While the counter stays in range, `k` calls of `incrementInfect` add `k`. -/
theorem incrementInfect_iterate (h : Human) (k : Nat) (hlo : INT_MIN ≤ h.m_infection)
    (hhi : h.m_infection + k ≤ INT_MAX) :
    (Human.incrementInfect^[k] h).m_infection = h.m_infection + k := by
  induction k with
  | zero => simp
  | succ n ih =>
    have hn : h.m_infection + (n : Int) ≤ INT_MAX := by
      push_cast at hhi
      omega
    rw [Function.iterate_succ_apply']
    show wrapInt ((Human.incrementInfect^[n] h).m_infection + 1) = _
    rw [ih hn]
    push_cast at hhi ⊢
    rw [wrapInt_of_inRange (by omega) (by omega)]
    omega

theorem decPlan_iterate (z : Zombie) (k : Nat) :
    Zombie.decPlan^[k] z = { z with m_movementPlan := z.m_movementPlan - k } := by
  induction k with
  | zero => simp
  | succ n ih =>
    rw [Function.iterate_succ_apply', ih]
    simp [Zombie.decPlan, sub_sub]

/-! ## Liveness -/

/-- C1: after `setDead()` an object reports `isDead()`, and it still does after
any further sequence of the calls whose effect the header defines (`setDead`
again, the default callbacks, the counter and inventory mutators). -/
theorem setDead_isDead_stays (e : Entity) (ops : List Op) :
    e.setDead.isDead = true ∧
      ∀ e1 : Entity, run ops e.setDead = some e1 → e1.isDead = true :=
  ⟨isDead_setDead e, fun _ h => run_keeps_dead ops h (isDead_setDead e)⟩

/-- Witness for C1: a player object is marked dead and then receives seven
more calls; the calls all run and the object is still dead. -/
theorem setDead_isDead_stays_witness :
    run sampleOps (Entity.penelope samplePenelope).setDead = some sampleAfterOps ∧
      sampleAfterOps.isDead = true :=
  ⟨by decide,
   (setDead_isDead_stays (Entity.penelope samplePenelope) sampleOps).2 sampleAfterOps
     (by decide)⟩

/-! ## Inventory -/

/-- Counterexample to C2: a player holding 2147483645 flame charges, a value
of `int`, calls `increaseFlameCharges()`; the count becomes -2147483646, which
is not the old count plus 5. -/
theorem increaseFlameCharges_overflow :
    (INT_MIN ≤ fullFlamePenelope.getNumFlameCharges ∧
      fullFlamePenelope.getNumFlameCharges ≤ INT_MAX) ∧
    fullFlamePenelope.increaseFlameCharges.getNumFlameCharges = -2147483646 ∧
    fullFlamePenelope.increaseFlameCharges.getNumFlameCharges ≠
      fullFlamePenelope.getNumFlameCharges + 5 := by
  decide

/-- C2, amended: each of the three mutators leaves the other two inventory
counts as they were; and when the count it raises is an `int` far enough from
the largest `int` for the sum to fit, `increaseVaccines()` raises the vaccine
count by 1, `increaseFlameCharges()` the flame charge count by 5 and
`increaseLandmines()` the landmine count by 2. -/
theorem inventory_grants_in_range (p : Penelope) :
    ((INT_MIN ≤ p.getNumVaccines → p.getNumVaccines ≤ INT_MAX - 1 →
        p.increaseVaccines.getNumVaccines = p.getNumVaccines + 1) ∧
      p.increaseVaccines.getNumFlameCharges = p.getNumFlameCharges ∧
      p.increaseVaccines.getNumLandmines = p.getNumLandmines) ∧
    ((INT_MIN ≤ p.getNumFlameCharges → p.getNumFlameCharges ≤ INT_MAX - 5 →
        p.increaseFlameCharges.getNumFlameCharges = p.getNumFlameCharges + 5) ∧
      p.increaseFlameCharges.getNumVaccines = p.getNumVaccines ∧
      p.increaseFlameCharges.getNumLandmines = p.getNumLandmines) ∧
    ((INT_MIN ≤ p.getNumLandmines → p.getNumLandmines ≤ INT_MAX - 2 →
        p.increaseLandmines.getNumLandmines = p.getNumLandmines + 2) ∧
      p.increaseLandmines.getNumVaccines = p.getNumVaccines ∧
      p.increaseLandmines.getNumFlameCharges = p.getNumFlameCharges) := by
  simp only [Penelope.getNumVaccines, Penelope.getNumFlameCharges, Penelope.getNumLandmines]
  refine ⟨⟨?_, rfl, rfl⟩, ⟨?_, rfl, rfl⟩, ⟨?_, rfl, rfl⟩⟩
  · intro hlo hhi
    unfold INT_MIN at hlo
    unfold INT_MAX at hhi
    exact wrapInt_of_inRange (by unfold INT_MIN; omega) (by unfold INT_MAX; omega)
  · intro hlo hhi
    unfold INT_MIN at hlo
    unfold INT_MAX at hhi
    exact wrapInt_of_inRange (by unfold INT_MIN; omega) (by unfold INT_MAX; omega)
  · intro hlo hhi
    unfold INT_MIN at hlo
    unfold INT_MAX at hhi
    exact wrapInt_of_inRange (by unfold INT_MIN; omega) (by unfold INT_MAX; omega)

/-- Witness for the amended C2 on a player with an empty inventory: the three
counts go from 0 to 1, 5 and 2. -/
theorem inventory_grants_in_range_witness :
    samplePenelope.increaseVaccines.getNumVaccines = 1 ∧
    samplePenelope.increaseFlameCharges.getNumFlameCharges = 5 ∧
    samplePenelope.increaseLandmines.getNumLandmines = 2 :=
  ⟨(inventory_grants_in_range samplePenelope).1.1 (by decide) (by decide),
   (inventory_grants_in_range samplePenelope).2.1.1 (by decide) (by decide),
   (inventory_grants_in_range samplePenelope).2.2.1 (by decide) (by decide)⟩

/-! ## Capability queries -/

/-- C3: a class that overrides none of the six capability queries answers
false to each of them, these being the answers of the inline bodies in
`Actor`. -/
theorem defaults_answer_false (c : ClassId)
    (h : ∀ m ∈ capabilityQueries, overrides c m = false) :
    callBool c .blocksMovement = some false ∧
    callBool c .blocksFlame = some false ∧
    callBool c .triggersOnlyActiveLandmines = some false ∧
    callBool c .triggersCitizens = some false ∧
    callBool c .triggersZombieVomit = some false ∧
    callBool c .isPlayer = some false := by
  have h1 := h .blocksMovement (by decide)
  have h2 := h .blocksFlame (by decide)
  have h3 := h .triggersOnlyActiveLandmines (by decide)
  have h4 := h .triggersCitizens (by decide)
  have h5 := h .triggersZombieVomit (by decide)
  have h6 := h .isPlayer (by decide)
  cases c <;> first
    | exact absurd h1 (by decide)
    | exact absurd h2 (by decide)
    | exact absurd h3 (by decide)
    | exact absurd h4 (by decide)
    | exact absurd h5 (by decide)
    | exact absurd h6 (by decide)
    | decide

/-- Witness for C3: `Actor` itself and `Pit` override none of the six queries
and answer false to all of them. -/
theorem defaults_answer_false_witness :
    (callBool .Actor .blocksMovement = some false ∧
     callBool .Actor .blocksFlame = some false ∧
     callBool .Actor .triggersOnlyActiveLandmines = some false ∧
     callBool .Actor .triggersCitizens = some false ∧
     callBool .Actor .triggersZombieVomit = some false ∧
     callBool .Actor .isPlayer = some false) ∧
    (callBool .Pit .blocksMovement = some false ∧
     callBool .Pit .blocksFlame = some false ∧
     callBool .Pit .triggersOnlyActiveLandmines = some false ∧
     callBool .Pit .triggersCitizens = some false ∧
     callBool .Pit .triggersZombieVomit = some false ∧
     callBool .Pit .isPlayer = some false) :=
  ⟨defaults_answer_false .Actor (by decide), defaults_answer_false .Pit (by decide)⟩

/-- C6: `triggersOnlyActiveLandmines()` answers true on an object exactly when
its class derives from `Agent`; that is the case for Penelope, Citizen,
DumbZombie and SmartZombie, and for none of Wall, Exit, Pit, Flame, Vomit,
Landmine and the three goodies. -/
theorem triggersOnlyActiveLandmines_iff_agent (e : Entity) :
    e.triggersOnlyActiveLandmines = some (derivesFrom e.classOf .Agent) ∧
    (e.classOf ∈ agentKinds ↔ e.triggersOnlyActiveLandmines = some true) ∧
    (e.classOf ∈ nonAgentKinds ↔ e.triggersOnlyActiveLandmines = some false) := by
  cases e <;> simp only [Entity.triggersOnlyActiveLandmines, Entity.classOf] <;> decide

/-- C9, evaluated on the code: `triggersCitizens()` on a player object runs the
inline body of `Actor` and answers false; on both zombie kinds it runs the
body of `Zombie` and answers true. -/
theorem triggersCitizens_penelope_false (p : Penelope) (d : DumbZombie) (z : SmartZombie) :
    resolve .Penelope .triggersCitizens = some (.Actor, .returnBool false) ∧
    (Entity.penelope p).triggersCitizens = some false ∧
    (Entity.dumbZombie d).triggersCitizens = some true ∧
    (Entity.smartZombie z).triggersCitizens = some true :=
  ⟨rfl, rfl, rfl, rfl⟩

/-! ## Falling and burning -/

/-- Counterexample to C4: a live wall takes `dieByFallOrBurnIfAppropriate` from
`Actor`, and after the call it is the same live wall. -/
theorem default_fallOrBurn_wall_stays_alive :
    sampleWall.classOf ∈ fallOrBurnDefaultKinds ∧
    overrides sampleWall.classOf .dieByFallOrBurnIfAppropriate = false ∧
    sampleWall.isDead = false ∧
    sampleWall.dieByFallOrBurnIfAppropriate = some sampleWall ∧
    Option.map Entity.isDead sampleWall.dieByFallOrBurnIfAppropriate = some false := by
  decide

/-- C4, amended: on an object of a kind that does not override
`dieByFallOrBurnIfAppropriate()` (these are Wall, Exit, Pit, Flame and Vomit)
the call returns with the object unchanged, so its liveness stays what it was. -/
theorem default_fallOrBurn_no_effect (e : Entity)
    (h : e.classOf ∈ fallOrBurnDefaultKinds) :
    overrides e.classOf .dieByFallOrBurnIfAppropriate = false ∧
    e.dieByFallOrBurnIfAppropriate = some e ∧
    Option.map Entity.isDead e.dieByFallOrBurnIfAppropriate = some e.isDead ∧
    (∀ f : Entity, overrides f.classOf .dieByFallOrBurnIfAppropriate = false →
      f.classOf ∈ fallOrBurnDefaultKinds) := by
  refine ⟨?_, ?_, ?_, ?_⟩
  · cases e <;> simp only [Entity.classOf] at h ⊢ <;> first
      | exact absurd h (by decide)
      | rfl
  · cases e <;> simp only [Entity.classOf] at h ⊢ <;> first
      | exact absurd h (by decide)
      | rfl
  · cases e <;> simp only [Entity.classOf] at h ⊢ <;> first
      | exact absurd h (by decide)
      | rfl
  · intro f hf
    cases f <;> simp only [Entity.classOf] at hf ⊢ <;> first
      | exact absurd hf (by decide)
      | decide

/-- Witness for the amended C4 on a live pit. -/
theorem default_fallOrBurn_no_effect_witness :
    samplePit.classOf ∈ fallOrBurnDefaultKinds ∧
    samplePit.isDead = false ∧
    samplePit.dieByFallOrBurnIfAppropriate = some samplePit ∧
    Option.map Entity.isDead samplePit.dieByFallOrBurnIfAppropriate = some samplePit.isDead :=
  ⟨by decide, rfl, (default_fallOrBurn_no_effect samplePit (by decide)).2.1,
   (default_fallOrBurn_no_effect samplePit (by decide)).2.2.1⟩

/-! ## Goodie pickup -/

/-- C5: on an object that is not the player, `pickUpGoodieIfAppropriate(g)`
with any goodie `g` returns with the object and the goodie unchanged; the
objects that are not the player are those of a class other than Penelope, and
Penelope is the only class that overrides the function. -/
theorem pickUpGoodie_only_player (e g : Entity)
    (hg : derivesFrom g.classOf .Goodie = true) (hp : e.isPlayer = some false) :
    e.pickUpGoodieIfAppropriate g = some (e, g) ∧
    e.classOf ≠ .Penelope ∧
    (∀ f : Entity, f.isPlayer = some false ↔ f.classOf ≠ .Penelope) ∧
    (∀ c : ClassId, c ≠ .Actor →
      ((declares c .pickUpGoodieIfAppropriate).isSome = true ↔ c = .Penelope)) := by
  refine ⟨?_, ?_, ?_, ?_⟩
  · unfold Entity.pickUpGoodieIfAppropriate
    rw [if_pos hg]
    cases e <;> simp only [Entity.isPlayer, Entity.classOf] at hp ⊢ <;> first
      | exact absurd hp (by decide)
      | rfl
  · cases e <;> simp only [Entity.isPlayer, Entity.classOf] at hp ⊢ <;> first
      | exact absurd hp (by decide)
      | decide
  · intro f
    cases f <;> simp only [Entity.isPlayer, Entity.classOf] <;> decide
  · intro c hc
    cases c <;> first
      | exact absurd rfl hc
      | decide

/-- Witness for C5: a citizen handed a vaccine goodie. -/
theorem pickUpGoodie_only_player_witness :
    sampleCitizen.pickUpGoodieIfAppropriate sampleGoodie = some (sampleCitizen, sampleGoodie) ∧
    (sampleGoodie.isDead = false ∧ sampleCitizen.classOf ≠ .Penelope) :=
  ⟨(pickUpGoodie_only_player sampleCitizen sampleGoodie (by decide) (by decide)).1,
   by decide⟩

/-! ## Infection counter -/

/-- Counterexample to C8: on a human whose infection counter is 2147483647,
the largest `int`, one call of `incrementInfect()` gives -2147483648, which is
not the old duration plus 1. -/
theorem incrementInfect_overflow :
    (INT_MIN ≤ longInfectedHuman.getInfectionDuration ∧
      longInfectedHuman.getInfectionDuration ≤ INT_MAX) ∧
    (Human.incrementInfect^[1] longInfectedHuman).getInfectionDuration = -2147483648 ∧
    (Human.incrementInfect^[1] longInfectedHuman).getInfectionDuration ≠
      longInfectedHuman.getInfectionDuration + 1 := by
  decide

/-- C8, amended: `k` calls of `incrementInfect()` change neither the infected
flag nor the liveness flag; and when the duration is an `int` and the duration
plus `k` does not pass the largest `int`, they raise `getInfectionDuration()`
by `k`. -/
theorem incrementInfect_counts_in_range (h : Human) (k : Nat) :
    (INT_MIN ≤ h.getInfectionDuration → h.getInfectionDuration + k ≤ INT_MAX →
      (Human.incrementInfect^[k] h).getInfectionDuration = h.getInfectionDuration + k) ∧
    (Human.incrementInfect^[k] h).m_isInfected = h.m_isInfected ∧
    (Human.incrementInfect^[k] h).toActor.isDead = h.toActor.isDead := by
  refine ⟨fun hlo hhi => incrementInfect_iterate h k hlo hhi,
    (incrementInfect_iterate_frame h k).2, ?_⟩
  have hf := (incrementInfect_iterate_frame h k).1
  simp only [Actor.isDead, hf]

/-- Witness for the amended C8: three calls on a fresh human take the duration
from 0 to 3. -/
theorem incrementInfect_counts_in_range_witness :
    (Human.incrementInfect^[3] sampleHuman).getInfectionDuration = 3 ∧
    (Human.incrementInfect^[3] sampleHuman).m_isInfected = false ∧
    (Human.incrementInfect^[3] sampleHuman).toActor.isDead = false :=
  ⟨(incrementInfect_counts_in_range sampleHuman 3).1 (by decide) (by decide),
   (incrementInfect_counts_in_range sampleHuman 3).2.1,
   (incrementInfect_counts_in_range sampleHuman 3).2.2⟩

/-! ## Zombie movement plan -/

/-- Counterexample to C7: `setPlan(-1)` leaves the counter at -1, a negative
value. -/
theorem setPlan_negative_stored :
    (sampleZombie.setPlan (-1)).m_movementPlan = -1 ∧
    (sampleZombie.setPlan (-1)).m_movementPlan < 0 := by
  decide

/-- C7, amended: `setPlan(steps)` stores `steps` as it is, with no clamping:
afterwards the counter equals `steps`, so it is non-negative exactly when
`steps` is, and nothing else of the zombie changes. -/
theorem setPlan_stores (z : Zombie) (steps : Int) :
    (z.setPlan steps).m_movementPlan = steps ∧
    (0 ≤ (z.setPlan steps).m_movementPlan ↔ 0 ≤ steps) ∧
    (z.setPlan steps).toAgent = z.toAgent ∧
    (z.setPlan steps).m_stuckZombie = z.m_stuckZombie :=
  ⟨rfl, Iff.rfl, rfl, rfl⟩

/-- C10: `getPlan()` tells only whether the counter is non-zero. After
`setPlan(n)` and `k` calls of `decPlan()` the counter is `n - k` and `getPlan()`
is false exactly when `k = n`; on a counter at 0, `getPlan()` is false and one
`decPlan()` takes the counter to -1, where `getPlan()` is true again. -/
theorem getPlan_false_iff (z : Zombie) (n : Int) (k : Nat) :
    ((Zombie.decPlan^[k] (z.setPlan n)).getPlan = false ↔ (k : Int) = n) ∧
    (Zombie.decPlan^[k] (z.setPlan n)).m_movementPlan = n - k ∧
    (z.getPlan = true ↔ z.m_movementPlan ≠ 0) ∧
    (z.m_movementPlan = 0 →
      z.getPlan = false ∧ z.decPlan.m_movementPlan = -1 ∧ z.decPlan.getPlan = true) := by
  rw [decPlan_iterate]
  refine ⟨?_, rfl, ?_, ?_⟩
  · simp only [Zombie.getPlan, Zombie.setPlan, decide_eq_false_iff_not, ne_eq, not_not]
    constructor
    · intro h
      omega
    · intro h
      omega
  · simp [Zombie.getPlan]
  · intro h
    simp [Zombie.getPlan, Zombie.decPlan, h]

/-- Witness for C10 on a zombie whose counter is 0: after `setPlan(2)` and two
`decPlan()` the plan reads false, and one more `decPlan()` gives -1 and true. -/
theorem getPlan_false_iff_witness :
    (Zombie.decPlan^[2] (sampleZombie.setPlan 2)).getPlan = false ∧
    (Zombie.decPlan^[3] (sampleZombie.setPlan 2)).m_movementPlan = -1 ∧
    (sampleZombie.getPlan = false ∧ sampleZombie.decPlan.m_movementPlan = -1 ∧
      sampleZombie.decPlan.getPlan = true) :=
  ⟨(getPlan_false_iff sampleZombie 2 2).1.mpr rfl,
   (getPlan_false_iff sampleZombie 2 3).2.1,
   (getPlan_false_iff sampleZombie 2 0).2.2.2 rfl⟩

end ZombieDash
